import Mathlib

/-!
Verification development for the FT body-measurement reconstruction pipeline.

The mannequin mesh builder is embedded from src/components/BodyVisualizer.tsx
(lines 198-278): each geometric quantity of the mannequin is a definition that
mirrors one line of the source.  Measurement fields are optional rational
numbers; the JavaScript defaulting idiom `measurements.x || d` is modelled by
`jsOr`.  Radii divide a circumference by 2 * pi and therefore live in the real
numbers; the vertical layout is exact rational arithmetic, as in the source
(1 world unit = 1 cm).

The scaling engine and the circumference estimator are not implemented in the
repository source (the numeric work is delegated to a hosted vision model via
a prompt); those two components are modelled from the specification, and each
such definition is marked accordingly in its doc comment.
-/

namespace FT

/-- JavaScript numeric defaulting `v || d` as used throughout
src/components/BodyVisualizer.tsx: an absent field or a stored `0` (falsy)
yields the default `d`; any other stored value (including negative values,
which are truthy in JavaScript) is returned unchanged. -/
def jsOr (v : Option ℚ) (d : ℚ) : ℚ :=
  match v with
  | none => d
  | some x => if x = 0 then d else x

/-- The measurement fields of a MeasurementResult that the mesh builder reads
(src/unnamed/part_002, interface MeasurementResult).  Every field is optional
here so that absent data, which the visualizer tolerates through `jsOr`, can
be represented. -/
structure MeasurementSet where
  neck : Option ℚ
  shoulder : Option ℚ
  chest : Option ℚ
  waist : Option ℚ
  hips : Option ℚ
  thigh : Option ℚ
  calf : Option ℚ
  ankle : Option ℚ
  inseam : Option ℚ
  bicep : Option ℚ
  wrist : Option ℚ
  sleeve : Option ℚ

/-- Fixed head sphere radius (BodyVisualizer.tsx line 203). -/
def headRadius : ℚ := 12

/-- Head sphere centre height: `h - headRadius` (line 204). -/
def headY (h : ℚ) : ℚ := h - headRadius

/-- Neck cylinder radius: `(measurements.neck || 38) / (2 * Math.PI)` (line 208). -/
noncomputable def neckRadius (m : MeasurementSet) : ℝ :=
  (jsOr m.neck 38 : ℝ) / (2 * Real.pi)

/-- Neck cylinder height (line 209). -/
def neckHeight : ℚ := 10

/-- Neck centre: `headY - headRadius - neckHeight/2 + 2` (line 210). -/
def neckY (h : ℚ) : ℚ := headY h - headRadius - neckHeight / 2 + 2

/-- Shoulder yoke length: `measurements.shoulder || 45` (line 215). -/
def shoulderWidth (m : MeasurementSet) : ℚ := jsOr m.shoulder 45

/-- Shoulder yoke centre: `neckY - neckHeight/2 - 2` (line 216). -/
def shoulderY (h : ℚ) : ℚ := neckY h - neckHeight / 2 - 2

/-- Shoulder yoke cylinder cross-section radius, the literal `6` of
`CylinderGeometry(6, 6, shoulderWidth, 32)` (line 217). -/
def yokeRadius : ℚ := 6

/-- Chest radius: `(measurements.chest || 100) / (2 * Math.PI)` (line 225). -/
noncomputable def chestRadius (m : MeasurementSet) : ℝ :=
  (jsOr m.chest 100 : ℝ) / (2 * Real.pi)

/-- Chest cylinder height (line 226). -/
def chestHeight : ℚ := 25

/-- Chest centre: `shoulderY - 10` (line 227). -/
def chestY (h : ℚ) : ℚ := shoulderY h - 10

/-- Waist radius: `(measurements.waist || 80) / (2 * Math.PI)` (line 231). -/
noncomputable def waistRadius (m : MeasurementSet) : ℝ :=
  (jsOr m.waist 80 : ℝ) / (2 * Real.pi)

/-- Waist cylinder height (line 232). -/
def waistHeight : ℚ := 15

/-- Waist centre: `chestY - chestHeight/2 - waistHeight/2` (line 233). -/
def waistY (h : ℚ) : ℚ := chestY h - chestHeight / 2 - waistHeight / 2

/-- Hip radius: `(measurements.hips || 95) / (2 * Math.PI)` (line 237). -/
noncomputable def hipRadius (m : MeasurementSet) : ℝ :=
  (jsOr m.hips 95 : ℝ) / (2 * Real.pi)

/-- Hip cylinder height (line 238). -/
def hipHeight : ℚ := 20

/-- Hip centre: `waistY - waistHeight/2 - hipHeight/2` (line 239). -/
def hipY (h : ℚ) : ℚ := waistY h - waistHeight / 2 - hipHeight / 2

/-- Thigh radius: `(measurements.thigh || 55) / (2 * Math.PI)` (line 243). -/
noncomputable def legRadius (m : MeasurementSet) : ℝ :=
  (jsOr m.thigh 55 : ℝ) / (2 * Real.pi)

/-- Calf radius: `(measurements.calf || 38) / (2 * Math.PI)` (line 244). -/
noncomputable def calfRadius (m : MeasurementSet) : ℝ :=
  (jsOr m.calf 38 : ℝ) / (2 * Real.pi)

/-- Ankle radius: `(measurements.ankle || 25) / (2 * Math.PI)` (line 245). -/
noncomputable def ankleRadius (m : MeasurementSet) : ℝ :=
  (jsOr m.ankle 25 : ℝ) / (2 * Real.pi)

/-- Total leg length: `measurements.inseam || 75` (line 246). -/
def legLength (m : MeasurementSet) : ℚ := jsOr m.inseam 75

/-- Horizontal leg offset: `hipRadius * 0.8` (line 247). -/
noncomputable def legSpacing (m : MeasurementSet) : ℝ := hipRadius m * 0.8

/-- Thigh segment length: `legLength * 0.5` (line 251). -/
def thighLen (m : MeasurementSet) : ℚ := legLength m * 0.5

/-- Thigh centre: `hipY - hipHeight/2 - thighLen/2` (line 252). -/
def thighY (m : MeasurementSet) (h : ℚ) : ℚ :=
  hipY h - hipHeight / 2 - thighLen m / 2

/-- Knee joint height: `thighY - thighLen/2` (line 258). -/
def kneeY (m : MeasurementSet) (h : ℚ) : ℚ := thighY m h - thighLen m / 2

/-- Knee sphere radius: `calfRadius * 1.1` (line 259). -/
noncomputable def kneeRadius (m : MeasurementSet) : ℝ := calfRadius m * 1.1

/-- Shin segment length: `legLength * 0.5` (line 265). -/
def shinLen (m : MeasurementSet) : ℚ := legLength m * 0.5

/-- Shin centre: `kneeY - shinLen/2` (line 266). -/
def shinY (m : MeasurementSet) (h : ℚ) : ℚ := kneeY m h - shinLen m / 2

/-- Upper-arm radius: `(measurements.bicep || 35) / (2 * Math.PI)` (line 276). -/
noncomputable def armRadius (m : MeasurementSet) : ℝ :=
  (jsOr m.bicep 35 : ℝ) / (2 * Real.pi)

/-- Forearm radius: `(measurements.wrist || 17) / (2 * Math.PI) * 1.5` (line 277). -/
noncomputable def forearmRadius (m : MeasurementSet) : ℝ :=
  (jsOr m.wrist 17 : ℝ) / (2 * Real.pi) * 1.5

/-- Arm length: `measurements.sleeve || 60` (line 278). -/
def armLength (m : MeasurementSet) : ℚ := jsOr m.sleeve 60

/-- All geometric quantities of the mannequin built by BodyVisualizer.tsx:
segment radii, segment heights and vertical centre positions, in the order
the source computes them. -/
structure Mannequin where
  headRadius : ℚ
  headY : ℚ
  neckRadius : ℝ
  neckHeight : ℚ
  neckY : ℚ
  shoulderWidth : ℚ
  shoulderY : ℚ
  yokeRadius : ℚ
  chestRadius : ℝ
  chestHeight : ℚ
  chestY : ℚ
  waistRadius : ℝ
  waistHeight : ℚ
  waistY : ℚ
  hipRadius : ℝ
  hipHeight : ℚ
  hipY : ℚ
  legRadius : ℝ
  calfRadius : ℝ
  ankleRadius : ℝ
  legLength : ℚ
  legSpacing : ℝ
  thighLen : ℚ
  thighY : ℚ
  kneeY : ℚ
  kneeRadius : ℝ
  shinLen : ℚ
  shinY : ℚ
  armRadius : ℝ
  forearmRadius : ℝ
  armLength : ℚ

/-- The complete mannequin built, single-pass, from a MeasurementSet and the
subject height `h` in cm (BodyVisualizer.tsx lines 198-278). -/
noncomputable def mannequin (m : MeasurementSet) (h : ℚ) : Mannequin :=
  { headRadius := headRadius
    headY := headY h
    neckRadius := neckRadius m
    neckHeight := neckHeight
    neckY := neckY h
    shoulderWidth := shoulderWidth m
    shoulderY := shoulderY h
    yokeRadius := yokeRadius
    chestRadius := chestRadius m
    chestHeight := chestHeight
    chestY := chestY h
    waistRadius := waistRadius m
    waistHeight := waistHeight
    waistY := waistY h
    hipRadius := hipRadius m
    hipHeight := hipHeight
    hipY := hipY h
    legRadius := legRadius m
    calfRadius := calfRadius m
    ankleRadius := ankleRadius m
    legLength := legLength m
    legSpacing := legSpacing m
    thighLen := thighLen m
    thighY := thighY m h
    kneeY := kneeY m h
    kneeRadius := kneeRadius m
    shinLen := shinLen m
    shinY := shinY m h
    armRadius := armRadius m
    forearmRadius := forearmRadius m
    armLength := armLength m }

/-- Top of the stacked mannequin: the top of the head sphere. -/
def stackTop (h : ℚ) : ℚ := headY h + headRadius

/-- Bottom of the stacked mannequin: the bottom of the shin cylinder. -/
def stackBottom (m : MeasurementSet) (h : ℚ) : ℚ := shinY m h - shinLen m / 2

/-- Total vertical extent of the stacked segments head through shins, each
joint overlap counted once: the distance from the top of the head to the
bottom of the shins. -/
def stackSpan (m : MeasurementSet) (h : ℚ) : ℚ := stackTop h - stackBottom m h

/-- A fully populated MeasurementSet (the demo-mode measurement values of
src/services/geminiService.ts, MOCK_MEASUREMENT_RESULT). -/
def demoSet : MeasurementSet :=
  { neck := some 39
    shoulder := some 46
    chest := some 102
    waist := some 85
    hips := some 98
    thigh := some 58
    calf := some 39
    ankle := some 26
    inseam := some 81
    bicep := some 34
    wrist := some 17
    sleeve := some 62 }

/-- A 2D landmark point, each axis normalized to the unit interval
(src/unnamed/part_002, interface LandmarkPoint). -/
structure LandmarkPoint where
  x : ℚ
  y : ℚ

/-- Fatal calibration failure of the scaling engine (spec section 7): either a
required head-top or feet-center landmark is missing, or the derived pixel
height is zero or negative. -/
inductive CalibrationError where
  | missingLandmark : CalibrationError
  | nonpositivePixelHeight : CalibrationError

/-- Modelled from the spec: the pixel-space height of the subject, the
vertical distance from the head-top landmark to the feet-center landmark
(spec section 3, CalibrationReference).  The scaling computation itself is not
implemented in the repository source; it is delegated to the hosted vision
model by the prompt in src/services/geminiService.ts. -/
def pixelHeightOf (headTop feetCenter : LandmarkPoint) : ℚ :=
  feetCenter.y - headTop.y

/-- Modelled from the spec: the Scaling Engine (spec section 4.1).  Inputs are
the optional head-top and feet-center landmarks and the ground-truth height in
cm; output is `cmPerPixel = realHeightCm / pixelHeight`, or a CalibrationError
when a landmark is missing or `pixelHeight <= 0`.  Not implemented in the
repository source (delegated to the hosted vision model). -/
def scalingEngine (headTop feetCenter : Option LandmarkPoint)
    (realHeightCm : ℚ) : Except CalibrationError ℚ :=
  match headTop, feetCenter with
  | some ht, some fc =>
    let pixelHeight := pixelHeightOf ht fc
    if pixelHeight ≤ 0 then Except.error CalibrationError.nonpositivePixelHeight
    else Except.ok (realHeightCm / pixelHeight)
  | _, _ => Except.error CalibrationError.missingLandmark

/-- Modelled from the spec: the downstream measurement pipeline abstracted over
its per-region work (spec section 2, data flow): it first obtains `cmPerPixel`
from the Scaling Engine and only then produces a MeasurementSet from it, so a
calibration failure yields no (even partial) measurement set. -/
def measurementPipeline (headTop feetCenter : Option LandmarkPoint)
    (realHeightCm : ℚ) (buildFrom : ℚ → MeasurementSet) :
    Except CalibrationError MeasurementSet :=
  match scalingEngine headTop feetCenter realHeightCm with
  | Except.ok cmPerPixel => Except.ok (buildFrom cmPerPixel)
  | Except.error e => Except.error e

/-- Modelled from the spec: the Circumference Estimator (spec section 4.2).
The cross-section is an ellipse with semi-axes `a = width/2`, `b = depth/2`
and the circumference is Ramanujan's approximation
`pi * (3*(a+b) - sqrt ((3*a+b)*(a+3*b)))`.  Not implemented in the repository
source (the formula is requested from the hosted vision model by the prompt in
src/services/geminiService.ts). -/
noncomputable def ramanujanCircumference (width depth : ℝ) : ℝ :=
  Real.pi * (3 * (width / 2 + depth / 2) -
    Real.sqrt ((3 * (width / 2) + depth / 2) * (width / 2 + 3 * (depth / 2))))

/-- Demo-mode scale ratio `stats.height / 180`
(src/services/geminiService.ts line 143). -/
def scaleRatio (height : ℚ) : ℚ := height / 180

/-- Rounding to one decimal place, `Math.round(x * 10) / 10`; JavaScript
`Math.round` rounds half up, as does Mathlib `round`. -/
def round10 (x : ℚ) : ℚ := (round (x * 10) : ℤ) / 10

/-- The demo-mode `variance` helper (src/services/geminiService.ts lines
144-146): `Math.round(((base * scaleRatio) + (r * range - range/2)) * 10) / 10`
where `r` stands for the `Math.random()` draw in `[0, 1)`. -/
def variance (height base range r : ℚ) : ℚ :=
  round10 (base * scaleRatio height + (r * range - range / 2))

/-- The fields of the demo-mode MeasurementResult that the mock branch of
`analyzeBodyMeasurements` fills or overrides (src/services/geminiService.ts
lines 93-127 and 148-155). -/
structure DemoResult where
  chest : ℚ
  waist : ℚ
  hips : ℚ
  inseam : ℚ
  estimated_height_cm : ℚ
  thigh : ℚ
  calf : ℚ
  ankle : ℚ
  neck : ℚ
  shoulder : ℚ
  sleeve : ℚ
  bicep : ℚ
  wrist : ℚ
  confidence : ℚ
  model_name : String

/-- The `Math.random()` draws consumed by the demo-mode branch, one per
jittered field, each in `[0, 1)`. -/
structure DemoRandom where
  rChest : ℚ
  rWaist : ℚ
  rHips : ℚ
  rInseam : ℚ
  rHeight : ℚ

/-- The demo-mode result: MOCK_MEASUREMENT_RESULT with chest, waist, hips,
inseam and estimated_height_cm re-jittered by `variance`
(src/services/geminiService.ts lines 148-155). -/
def demoModeResult (height : ℚ) (rnd : DemoRandom) : DemoResult :=
  { chest := variance height 102 2 rnd.rChest
    waist := variance height 85 2 rnd.rWaist
    hips := variance height 98 2 rnd.rHips
    inseam := variance height 81 2 rnd.rInseam
    estimated_height_cm := variance height height 1 rnd.rHeight
    thigh := 58
    calf := 39
    ankle := 26
    neck := 39
    shoulder := 46
    sleeve := 62
    bicep := 34
    wrist := 17
    confidence := 88
    model_name := "DEMO-MODE" }

/-- The API-key dispatch of `analyzeBodyMeasurements`
(src/services/geminiService.ts lines 136-156): with no API key the call
resolves with the demo-mode result; with a key it performs the remote Gemini
call, represented here by its outcome `remote`. -/
def analyzeBodyMeasurements (apiKey : Option String) (height : ℚ)
    (rnd : DemoRandom) (remote : Except String DemoResult) :
    Except String DemoResult :=
  match apiKey with
  | none => Except.ok (demoModeResult height rnd)
  | some _ => remote

/-- Names of the twelve optional measurement fields the mesh builder reads. -/
inductive BodyField where
  | neck
  | shoulder
  | chest
  | waist
  | hips
  | thigh
  | calf
  | ankle
  | inseam
  | bicep
  | wrist
  | sleeve

/-- Replace one named field of a MeasurementSet. -/
def setField (m : MeasurementSet) (f : BodyField) (v : Option ℚ) : MeasurementSet :=
  match f with
  | BodyField.neck => { m with neck := v }
  | BodyField.shoulder => { m with shoulder := v }
  | BodyField.chest => { m with chest := v }
  | BodyField.waist => { m with waist := v }
  | BodyField.hips => { m with hips := v }
  | BodyField.thigh => { m with thigh := v }
  | BodyField.calf => { m with calf := v }
  | BodyField.ankle => { m with ankle := v }
  | BodyField.inseam => { m with inseam := v }
  | BodyField.bicep => { m with bicep := v }
  | BodyField.wrist => { m with wrist := v }
  | BodyField.sleeve => { m with sleeve := v }

/-- Read one named field of a MeasurementSet. -/
def getField (m : MeasurementSet) : BodyField → Option ℚ
  | BodyField.neck => m.neck
  | BodyField.shoulder => m.shoulder
  | BodyField.chest => m.chest
  | BodyField.waist => m.waist
  | BodyField.hips => m.hips
  | BodyField.thigh => m.thigh
  | BodyField.calf => m.calf
  | BodyField.ankle => m.ankle
  | BodyField.inseam => m.inseam
  | BodyField.bicep => m.bicep
  | BodyField.wrist => m.wrist
  | BodyField.sleeve => m.sleeve

/-- The hard-coded default constant the mesh builder substitutes for each
field when the stored value is absent or zero (the right-hand sides of the
`measurements.x || d` expressions in BodyVisualizer.tsx lines 208-278). -/
def defaultOf : BodyField → ℚ
  | BodyField.neck => 38
  | BodyField.shoulder => 45
  | BodyField.chest => 100
  | BodyField.waist => 80
  | BodyField.hips => 95
  | BodyField.thigh => 55
  | BodyField.calf => 38
  | BodyField.ankle => 25
  | BodyField.inseam => 75
  | BodyField.bicep => 35
  | BodyField.wrist => 17
  | BodyField.sleeve => 60

/-- A stored optional field is nonnegative whenever present. -/
def optNonneg (v : Option ℚ) : Prop := ∀ x : ℚ, v = some x → 0 ≤ x

/-- The radius rule of the spec (section 4.4): whenever a nonzero
circumference `c` is stored in the field, the derived radius is
`c / (2 * pi)`. -/
def radiusSpec (v : Option ℚ) (r : ℝ) : Prop :=
  ∀ c : ℚ, v = some c → c ≠ 0 → r = (c : ℝ) / (2 * Real.pi)

/-- A MeasurementSet with every field absent. -/
def emptySet : MeasurementSet :=
  { neck := none
    shoulder := none
    chest := none
    waist := none
    hips := none
    thigh := none
    calf := none
    ankle := none
    inseam := none
    bicep := none
    wrist := none
    sleeve := none }

/-- A MeasurementSet whose only stored field is a negative thigh
circumference. -/
def negThighSet : MeasurementSet :=
  { emptySet with thigh := some (-55) }

/-- A MeasurementSet whose only stored field is a zero inseam. -/
def zeroInseamSet : MeasurementSet :=
  { emptySet with inseam := some 0 }

lemma optNonneg_none : optNonneg none := fun x hx => by cases hx

lemma jsOr_some_of_ne {c : ℚ} (d : ℚ) (hc : c ≠ 0) : jsOr (some c) d = c := by
  simp [jsOr, hc]

lemma jsOr_some_zero (d : ℚ) : jsOr (some 0) d = d := by
  simp [jsOr]

lemma jsOr_none (d : ℚ) : jsOr none d = d := rfl

lemma jsOr_pos {v : Option ℚ} {d : ℚ} (hd : 0 < d) (hv : optNonneg v) :
    0 < jsOr v d := by
  cases v with
  | none => simpa [jsOr] using hd
  | some x =>
    by_cases hx : x = 0
    · simpa [jsOr, hx] using hd
    · rw [jsOr_some_of_ne d hx]
      exact lt_of_le_of_ne (hv x rfl) (Ne.symm hx)

lemma two_pi_pos : (0 : ℝ) < 2 * Real.pi := by positivity

lemma div_two_pi_pos {c : ℚ} (hc : 0 < c) : (0 : ℝ) < (c : ℝ) / (2 * Real.pi) :=
  div_pos (by exact_mod_cast hc) two_pi_pos

/-- C1 (counterexample): for the fully populated demo MeasurementSet (inseam
81) and subject height 180 cm, the vertical extent of the stacked segments is
172.5 cm, which misses the input height by 7.5 cm, more than the claimed 2%
tolerance (3.6 cm). -/
theorem stackSpan_tolerance_counterexample :
    stackSpan demoSet 180 = 172.5 ∧
      ¬ |stackSpan demoSet 180 - 180| ≤ 2 / 100 * 180 := by
  constructor <;>
    norm_num [stackSpan, stackTop, stackBottom, shinY, kneeY, thighY, hipY,
      waistY, chestY, shoulderY, neckY, headY, shinLen, thighLen, legLength,
      headRadius, neckHeight, chestHeight, waistHeight, hipHeight, demoSet,
      jsOr, abs]

/-- C1 (amended): the vertical extent of the stacked segments, from the top of
the head sphere to the bottom of the shins with each joint overlap counted
once, equals `91.5 + legLength` cm for every MeasurementSet and every subject
height: the torso stack contributes the fixed 91.5 cm and the legs contribute
the inseam (default 75), independently of the input height.  The stack
therefore matches the subject height only when `91.5 + legLength` happens to
be within tolerance of it. -/
theorem stackSpan_eq_torso_const_add_legLength (m : MeasurementSet) (h : ℚ) :
    stackSpan m h = 91.5 + legLength m := by
  simp only [stackSpan, stackTop, stackBottom, shinY, kneeY, thighY, hipY,
    waistY, chestY, shoulderY, neckY, headY, shinLen, thighLen, headRadius,
    neckHeight, chestHeight, waistHeight, hipHeight]
  ring

/-- C8 (counterexample): a MeasurementSet whose inseam is present but equal to
0 gets a thigh segment of length 37.5 (half the default 75), not 50% of the
stored inseam, because the JavaScript `||` default treats the stored 0 as
absent. -/
theorem thighLen_zero_inseam_counterexample :
    thighLen zeroInseamSet = 37.5 ∧ thighLen zeroInseamSet ≠ 0 * 0.5 := by
  constructor <;>
    norm_num [thighLen, legLength, zeroInseamSet, emptySet, jsOr]

/-- C8 (amended): for every MeasurementSet with a nonzero inseam present, the
thigh segment length is 50% of the inseam and the shin takes the remaining
50%; a stored inseam of 0 is replaced by the default 75 before halving. -/
theorem thigh_shin_half_inseam (m : MeasurementSet) (c : ℚ)
    (hpres : m.inseam = some c) (hc : c ≠ 0) :
    thighLen m = c * 0.5 ∧ shinLen m = c * 0.5 := by
  unfold thighLen shinLen legLength
  rw [hpres, jsOr_some_of_ne _ hc]
  exact ⟨rfl, rfl⟩

/-- C8 (witness): the demo MeasurementSet stores inseam 81, and its thigh and
shin segments each get length 81 * 0.5. -/
theorem thigh_shin_half_inseam_witness :
    thighLen demoSet = 81 * 0.5 ∧ shinLen demoSet = 81 * 0.5 :=
  thigh_shin_half_inseam demoSet 81 rfl (by norm_num)

/-- C9: replacing any one of the twelve measurement fields by a stored 0
produces exactly the same mannequin as removing the field, and the effective
value used for that field is the hard-coded default constant of the source
(neck 38, chest 100, waist 80, hips 95, thigh 55, calf 38, ankle 25, bicep 35,
wrist 17, inseam 75, sleeve 60, shoulder 45). -/
theorem zero_field_same_mesh (m : MeasurementSet) (h : ℚ) (f : BodyField) :
    mannequin (setField m f (some 0)) h = mannequin (setField m f none) h ∧
      jsOr (getField (setField m f (some 0)) f) (defaultOf f) = defaultOf f := by
  cases f <;>
    refine ⟨?_, by simp [getField, setField, defaultOf, jsOr]⟩ <;>
    simp [mannequin, setField, headY, neckRadius, neckY, shoulderWidth,
      shoulderY, chestRadius, chestY, waistRadius, waistY, hipRadius, hipY,
      legRadius, calfRadius, ankleRadius, legLength, legSpacing, thighLen,
      thighY, kneeY, kneeRadius, shinLen, shinY, armRadius, forearmRadius,
      armLength, jsOr]

/-- C2 (counterexample): a stored negative thigh circumference is truthy in
JavaScript, so it is not replaced by the default and the builder produces a
strictly negative thigh radius. -/
theorem negative_thigh_radius_counterexample : legRadius negThighSet < 0 := by
  have hj : jsOr negThighSet.thigh 55 = -55 := by
    norm_num [negThighSet, emptySet, jsOr]
  unfold legRadius
  rw [hj]
  have hc : ((-55 : ℚ) : ℝ) = -55 := by norm_num
  rw [hc]
  exact div_neg_of_neg_of_pos (by norm_num) two_pi_pos

/-- C2 (amended): for every MeasurementSet whose present circumference fields
are all nonnegative, every circumference-derived radius of the mannequin is
strictly positive: a missing or zero field is replaced by the hard-coded
anthropometric default, so no zero radius is ever produced; only a stored
negative circumference (truthy in JavaScript, hence not defaulted) can break
the invariant. -/
theorem radii_positive (m : MeasurementSet)
    (h1 : optNonneg m.neck) (h2 : optNonneg m.chest) (h3 : optNonneg m.waist)
    (h4 : optNonneg m.hips) (h5 : optNonneg m.thigh) (h6 : optNonneg m.calf)
    (h7 : optNonneg m.ankle) (h8 : optNonneg m.bicep) (h9 : optNonneg m.wrist) :
    0 < neckRadius m ∧ 0 < chestRadius m ∧ 0 < waistRadius m ∧
      0 < hipRadius m ∧ 0 < legRadius m ∧ 0 < calfRadius m ∧
      0 < ankleRadius m ∧ 0 < kneeRadius m ∧ 0 < armRadius m ∧
      0 < forearmRadius m := by
  have hcalf : 0 < calfRadius m := by
    unfold calfRadius
    exact div_two_pi_pos (jsOr_pos (by norm_num) h6)
  refine ⟨?_, ?_, ?_, ?_, ?_, hcalf, ?_, ?_, ?_, ?_⟩
  · unfold neckRadius
    exact div_two_pi_pos (jsOr_pos (by norm_num) h1)
  · unfold chestRadius
    exact div_two_pi_pos (jsOr_pos (by norm_num) h2)
  · unfold waistRadius
    exact div_two_pi_pos (jsOr_pos (by norm_num) h3)
  · unfold hipRadius
    exact div_two_pi_pos (jsOr_pos (by norm_num) h4)
  · unfold legRadius
    exact div_two_pi_pos (jsOr_pos (by norm_num) h5)
  · unfold ankleRadius
    exact div_two_pi_pos (jsOr_pos (by norm_num) h7)
  · unfold kneeRadius
    exact mul_pos hcalf (by norm_num)
  · unfold armRadius
    exact div_two_pi_pos (jsOr_pos (by norm_num) h8)
  · unfold forearmRadius
    exact mul_pos (div_two_pi_pos (jsOr_pos (by norm_num) h9)) (by norm_num)

/-- C2 (witness): the MeasurementSet with every field absent, in particular
thigh (Scenario D of the spec), still yields strictly positive radii from the
documented defaults. -/
theorem radii_positive_witness :
    0 < neckRadius emptySet ∧ 0 < chestRadius emptySet ∧
      0 < waistRadius emptySet ∧ 0 < hipRadius emptySet ∧
      0 < legRadius emptySet ∧ 0 < calfRadius emptySet ∧
      0 < ankleRadius emptySet ∧ 0 < kneeRadius emptySet ∧
      0 < armRadius emptySet ∧ 0 < forearmRadius emptySet :=
  radii_positive emptySet optNonneg_none optNonneg_none optNonneg_none
    optNonneg_none optNonneg_none optNonneg_none optNonneg_none optNonneg_none
    optNonneg_none

/-- C7 (counterexample): the demo MeasurementSet stores wrist circumference
17, yet the forearm radius is not 17 / (2 * pi): the source multiplies the
wrist-derived radius by 1.5. -/
theorem forearm_radius_counterexample :
    forearmRadius demoSet ≠ (17 : ℝ) / (2 * Real.pi) := by
  have hj : jsOr demoSet.wrist 17 = 17 := by norm_num [demoSet, jsOr]
  have hval : forearmRadius demoSet = (17 : ℝ) / (2 * Real.pi) * 1.5 := by
    unfold forearmRadius
    rw [hj]
    norm_num
  rw [hval]
  have h0 : (17 : ℝ) / (2 * Real.pi) ≠ 0 := by positivity
  intro heq
  have h2 : (17 : ℝ) / (2 * Real.pi) * 1.5 = (17 : ℝ) / (2 * Real.pi) * 1 := by
    rw [mul_one]
    exact heq
  have h3 : (1.5 : ℝ) = 1 := mul_left_cancel₀ h0 h2
  norm_num at h3

/-- C7 (amended): for every region with a nonzero circumference present, the
derived radius is circumference / (2 * pi) for neck, chest, waist, hips,
thigh, calf, ankle and bicep; the wrist-derived forearm radius is
circumference / (2 * pi) * 1.5.  A stored zero is replaced by the default
before the division. -/
theorem radius_rule (m : MeasurementSet) :
    radiusSpec m.neck (neckRadius m) ∧ radiusSpec m.chest (chestRadius m) ∧
      radiusSpec m.waist (waistRadius m) ∧ radiusSpec m.hips (hipRadius m) ∧
      radiusSpec m.thigh (legRadius m) ∧ radiusSpec m.calf (calfRadius m) ∧
      radiusSpec m.ankle (ankleRadius m) ∧ radiusSpec m.bicep (armRadius m) ∧
      (∀ c : ℚ, m.wrist = some c → c ≠ 0 →
        forearmRadius m = (c : ℝ) / (2 * Real.pi) * 1.5) := by
  refine ⟨?_, ?_, ?_, ?_, ?_, ?_, ?_, ?_, ?_⟩ <;>
    intro c hc hne <;>
    simp [radiusSpec, neckRadius, chestRadius, waistRadius, hipRadius,
      legRadius, calfRadius, ankleRadius, armRadius, forearmRadius, hc,
      jsOr_some_of_ne _ hne]

/-- C7 (witness): in the demo MeasurementSet the stored neck circumference 39
yields neck radius 39 / (2 * pi). -/
theorem radius_rule_witness :
    neckRadius demoSet = (39 : ℝ) / (2 * Real.pi) :=
  (radius_rule demoSet).1 39 rfl (by norm_num)

/-- C3: for landmarks with strictly positive pixel height and a strictly
positive real height, the Scaling Engine returns
`cmPerPixel = realHeightCm / pixelHeight`, which is strictly positive
(modelled from the spec, section 4.1). -/
theorem scalingEngine_ok (ht fc : LandmarkPoint) (r : ℚ)
    (hp : 0 < pixelHeightOf ht fc) (hr : 0 < r) :
    scalingEngine (some ht) (some fc) r =
        Except.ok (r / pixelHeightOf ht fc) ∧
      0 < r / pixelHeightOf ht fc := by
  constructor
  · simp [scalingEngine, hp.not_le]
  · exact div_pos hr hp

/-- C3 (witness): head-top at y = 0 and feet-center at y = 900 with real
height 180 cm give cmPerPixel 180 / 900 = 0.2, strictly positive. -/
theorem scalingEngine_ok_witness :
    0 < pixelHeightOf ⟨0, 0⟩ ⟨0, 900⟩ ∧ (0 : ℚ) < 180 ∧
      (scalingEngine (some ⟨0, 0⟩) (some ⟨0, 900⟩) 180 =
          Except.ok (180 / pixelHeightOf ⟨0, 0⟩ ⟨0, 900⟩) ∧
        0 < (180 : ℚ) / pixelHeightOf ⟨0, 0⟩ ⟨0, 900⟩) :=
  ⟨by norm_num [pixelHeightOf], by norm_num,
    scalingEngine_ok ⟨0, 0⟩ ⟨0, 900⟩ 180 (by norm_num [pixelHeightOf])
      (by norm_num)⟩

/-- C4: whenever the head-top or feet-center landmark is missing, or the
derived pixel height is zero or negative, the Scaling Engine fails with a
CalibrationError — the result type cannot carry Infinity or NaN — and the
downstream pipeline propagates the same error, producing no partial
MeasurementSet (modelled from the spec, sections 4.1 and 7). -/
theorem scalingEngine_calibration_error (ht fc : Option LandmarkPoint)
    (r : ℚ) (buildFrom : ℚ → MeasurementSet)
    (hbad : ht = none ∨ fc = none ∨
      ∃ a b : LandmarkPoint, ht = some a ∧ fc = some b ∧
        pixelHeightOf a b ≤ 0) :
    ∃ e : CalibrationError, scalingEngine ht fc r = Except.error e ∧
      measurementPipeline ht fc r buildFrom = Except.error e := by
  rcases hbad with h | h | ⟨a, b, ha, hb, hab⟩
  · subst h
    have hSE : scalingEngine none fc r =
        Except.error CalibrationError.missingLandmark := by
      cases fc <;> rfl
    exact ⟨_, hSE, by simp [measurementPipeline, hSE]⟩
  · subst h
    have hSE : scalingEngine ht none r =
        Except.error CalibrationError.missingLandmark := by
      cases ht <;> rfl
    exact ⟨_, hSE, by simp [measurementPipeline, hSE]⟩
  · subst ha
    subst hb
    have hSE : scalingEngine (some a) (some b) r =
        Except.error CalibrationError.nonpositivePixelHeight := by
      simp [scalingEngine, hab]
    exact ⟨_, hSE, by simp [measurementPipeline, hSE]⟩

/-- C4 (witness): identical head-top and feet-center landmarks give pixel
height 0 (Scenario B), and both the Scaling Engine and the pipeline fail with
the same CalibrationError. -/
theorem scalingEngine_calibration_error_witness :
    ∃ e : CalibrationError,
      scalingEngine (some ⟨0, 0⟩) (some ⟨0, 0⟩) 180 = Except.error e ∧
        measurementPipeline (some ⟨0, 0⟩) (some ⟨0, 0⟩) 180
            (fun _ => demoSet) =
          Except.error e :=
  scalingEngine_calibration_error (some ⟨0, 0⟩) (some ⟨0, 0⟩) 180
    (fun _ => demoSet)
    (Or.inr (Or.inr ⟨⟨0, 0⟩, ⟨0, 0⟩, rfl, rfl, by norm_num [pixelHeightOf]⟩))

/-- C5 (counterexample): for chest width 50 cm and depth 40 cm (a = 25,
b = 20) the Ramanujan estimate is pi * (135 - sqrt ((3a+b)*(a+3b))) with
(3a+b)*(a+3b) = 95 * 85 = 8075, so it does not equal the claimed
pi * (3*45 - sqrt (95 * 105)): the claim's second factor a + 3b is 85, not
105. -/
theorem scenarioA_counterexample :
    ramanujanCircumference 50 40 ≠ Real.pi * (3 * 45 - Real.sqrt (95 * 105)) := by
  have hval : ramanujanCircumference 50 40 =
      Real.pi * (135 - Real.sqrt 8075) := by
    unfold ramanujanCircumference
    norm_num
  rw [hval]
  have h9975 : (95 : ℝ) * 105 = 9975 := by norm_num
  have h135 : (3 : ℝ) * 45 = 135 := by norm_num
  rw [h9975, h135]
  intro heq
  have hcancel : (135 : ℝ) - Real.sqrt 8075 = 135 - Real.sqrt 9975 :=
    mul_left_cancel₀ (ne_of_gt Real.pi_pos) heq
  have hlt : Real.sqrt 8075 < Real.sqrt 9975 :=
    Real.sqrt_lt_sqrt (by norm_num) (by norm_num)
  have heqs : Real.sqrt 8075 = Real.sqrt 9975 := by linarith
  exact absurd heqs (ne_of_lt hlt)

/-- C5 (amended): for chest width 50 cm and depth 40 cm the Circumference
Estimator returns Ramanujan's approximation
pi * (3*(25+20) - sqrt ((3*25+20)*(25+3*20))) = pi * (135 - sqrt 8075),
which is approximately 141.8 cm (strictly between 141 and 142), not 104.3 cm
(modelled from the spec, section 4.2). -/
theorem scenarioA_circumference :
    ramanujanCircumference 50 40 = Real.pi * (135 - Real.sqrt 8075) ∧
      141 < ramanujanCircumference 50 40 ∧ ramanujanCircumference 50 40 < 142 := by
  have hval : ramanujanCircumference 50 40 =
      Real.pi * (135 - Real.sqrt 8075) := by
    unfold ramanujanCircumference
    norm_num
  have hs1 : (89.86 : ℝ) < Real.sqrt 8075 :=
    (Real.lt_sqrt (by norm_num)).mpr (by norm_num)
  have hs2 : Real.sqrt 8075 < 89.87 :=
    (Real.sqrt_lt' (by norm_num)).mpr (by norm_num)
  refine ⟨hval, ?_, ?_⟩
  · rw [hval]
    nlinarith [Real.pi_gt_d4, Real.pi_pos, hs1, hs2]
  · rw [hval]
    nlinarith [Real.pi_lt_d4, Real.pi_pos, hs1, hs2]

/-- C6: for equal width and depth (a circular cross-section) the Ramanujan
approximation degenerates exactly to the circle circumference pi * width
(modelled from the spec, sections 4.2 and 8). -/
theorem ramanujan_circle_degenerate (w : ℝ) (hw : 0 ≤ w) :
    ramanujanCircumference w w = Real.pi * w := by
  unfold ramanujanCircumference
  have hsq : (3 * (w / 2) + w / 2) * (w / 2 + 3 * (w / 2)) = (2 * w) ^ 2 := by
    ring
  rw [hsq, Real.sqrt_sq (by linarith)]
  ring

/-- C6 (witness): Scenario C, width = depth = 42.4 cm (a = b = 21.2), gives
exactly pi * 42.4. -/
theorem ramanujan_circle_degenerate_witness :
    ramanujanCircumference 42.4 42.4 = Real.pi * 42.4 :=
  ramanujan_circle_degenerate 42.4 (by norm_num)

lemma round10_err (x : ℚ) : |round10 x - x| ≤ 1 / 20 := by
  have h := abs_sub_round (x * 10)
  have h2 : round10 x - x = -((x * 10 - (round (x * 10) : ℚ)) / 10) := by
    rw [round10]
    ring
  rw [h2, abs_neg, abs_div, show |(10 : ℚ)| = 10 by norm_num]
  calc |x * 10 - (round (x * 10) : ℚ)| / 10 ≤ (1 / 2) / 10 := by gcongr
    _ = 1 / 20 := by norm_num

lemma jitter_bound (x j : ℚ) (hj : |j| ≤ 1) :
    |round10 (x + j) - x| ≤ 21 / 20 := by
  have h1 := round10_err (x + j)
  calc |round10 (x + j) - x|
      = |(round10 (x + j) - (x + j)) + j| := by ring_nf
    _ ≤ |round10 (x + j) - (x + j)| + |j| := abs_add _ _
    _ ≤ 1 / 20 + 1 := add_le_add h1 hj
    _ = 21 / 20 := by norm_num

lemma variance_as_round10 (h base r : ℚ) :
    variance h base 2 r = round10 (base * scaleRatio h + (2 * r - 1)) := by
  unfold variance
  congr 1
  ring

lemma variance_bound (h base r : ℚ) (h0 : 0 ≤ r) (h1 : r < 1) :
    |variance h base 2 r - base * scaleRatio h| ≤ 21 / 20 := by
  rw [variance_as_round10]
  exact jitter_bound _ _ (abs_le.mpr ⟨by linarith, by linarith⟩)

/-- C10 (counterexample): with height 181 and a Math.random draw of 0.999 for
the chest, the demo-mode chest is 103.6, which differs from the scaled
baseline 102 * 181 / 180 by 31/30 > 1: after the one-decimal rounding the
deviation from the scaled baseline can exceed the claimed plus-minus 1. -/
theorem demo_jitter_counterexample :
    analyzeBodyMeasurements none 181 ⟨999 / 1000, 1 / 2, 1 / 2, 1 / 2, 1 / 2⟩
        (Except.error "offline") =
      Except.ok (demoModeResult 181 ⟨999 / 1000, 1 / 2, 1 / 2, 1 / 2, 1 / 2⟩) ∧
    (demoModeResult 181 ⟨999 / 1000, 1 / 2, 1 / 2, 1 / 2, 1 / 2⟩).chest = 103.6 ∧
    ¬ |(demoModeResult 181 ⟨999 / 1000, 1 / 2, 1 / 2, 1 / 2, 1 / 2⟩).chest -
        102 * (181 / 180)| ≤ 1 := by
  refine ⟨rfl, ?_, ?_⟩ <;>
    norm_num [demoModeResult, variance, round10, scaleRatio, abs_le,
      show round ((155347 : ℚ) / 150) = 1036 by norm_num [round_eq]]

/-- C10 (amended): with no API key, analyzeBodyMeasurements resolves
successfully with the demo-mode result: model_name is DEMO-MODE, and chest,
waist, hips and inseam are the demo baselines 102, 85, 98, 81 scaled by
height / 180, plus a jitter of at most plus-minus 1 drawn from Math.random,
rounded to one decimal; after rounding each field is within 21/20 = 1.05 of
the scaled baseline (not always within 1). -/
theorem demo_mode_spec (h : ℚ) (rnd : DemoRandom)
    (remote : Except String DemoResult)
    (hc0 : 0 ≤ rnd.rChest) (hc1 : rnd.rChest < 1)
    (hw0 : 0 ≤ rnd.rWaist) (hw1 : rnd.rWaist < 1)
    (hh0 : 0 ≤ rnd.rHips) (hh1 : rnd.rHips < 1)
    (hi0 : 0 ≤ rnd.rInseam) (hi1 : rnd.rInseam < 1) :
    analyzeBodyMeasurements none h rnd remote =
        Except.ok (demoModeResult h rnd) ∧
      (demoModeResult h rnd).model_name = "DEMO-MODE" ∧
      (demoModeResult h rnd).chest =
          round10 (102 * scaleRatio h + (2 * rnd.rChest - 1)) ∧
      |(demoModeResult h rnd).chest - 102 * scaleRatio h| ≤ 21 / 20 ∧
      (demoModeResult h rnd).waist =
          round10 (85 * scaleRatio h + (2 * rnd.rWaist - 1)) ∧
      |(demoModeResult h rnd).waist - 85 * scaleRatio h| ≤ 21 / 20 ∧
      (demoModeResult h rnd).hips =
          round10 (98 * scaleRatio h + (2 * rnd.rHips - 1)) ∧
      |(demoModeResult h rnd).hips - 98 * scaleRatio h| ≤ 21 / 20 ∧
      (demoModeResult h rnd).inseam =
          round10 (81 * scaleRatio h + (2 * rnd.rInseam - 1)) ∧
      |(demoModeResult h rnd).inseam - 81 * scaleRatio h| ≤ 21 / 20 :=
  ⟨rfl, rfl,
    variance_as_round10 h 102 rnd.rChest, variance_bound h 102 rnd.rChest hc0 hc1,
    variance_as_round10 h 85 rnd.rWaist, variance_bound h 85 rnd.rWaist hw0 hw1,
    variance_as_round10 h 98 rnd.rHips, variance_bound h 98 rnd.rHips hh0 hh1,
    variance_as_round10 h 81 rnd.rInseam, variance_bound h 81 rnd.rInseam hi0 hi1⟩

/-- C10 (witness): height 180 and Math.random draws of 0.5 everywhere satisfy
the amended demo-mode specification. -/
theorem demo_mode_spec_witness :
    analyzeBodyMeasurements none 180 ⟨1 / 2, 1 / 2, 1 / 2, 1 / 2, 1 / 2⟩
          (Except.error "offline") =
        Except.ok (demoModeResult 180 ⟨1 / 2, 1 / 2, 1 / 2, 1 / 2, 1 / 2⟩) ∧
      (demoModeResult 180 ⟨1 / 2, 1 / 2, 1 / 2, 1 / 2, 1 / 2⟩).model_name =
        "DEMO-MODE" ∧
      (demoModeResult 180 ⟨1 / 2, 1 / 2, 1 / 2, 1 / 2, 1 / 2⟩).chest =
          round10 (102 * scaleRatio 180 + (2 * (1 / 2) - 1)) ∧
      |(demoModeResult 180 ⟨1 / 2, 1 / 2, 1 / 2, 1 / 2, 1 / 2⟩).chest -
          102 * scaleRatio 180| ≤ 21 / 20 ∧
      (demoModeResult 180 ⟨1 / 2, 1 / 2, 1 / 2, 1 / 2, 1 / 2⟩).waist =
          round10 (85 * scaleRatio 180 + (2 * (1 / 2) - 1)) ∧
      |(demoModeResult 180 ⟨1 / 2, 1 / 2, 1 / 2, 1 / 2, 1 / 2⟩).waist -
          85 * scaleRatio 180| ≤ 21 / 20 ∧
      (demoModeResult 180 ⟨1 / 2, 1 / 2, 1 / 2, 1 / 2, 1 / 2⟩).hips =
          round10 (98 * scaleRatio 180 + (2 * (1 / 2) - 1)) ∧
      |(demoModeResult 180 ⟨1 / 2, 1 / 2, 1 / 2, 1 / 2, 1 / 2⟩).hips -
          98 * scaleRatio 180| ≤ 21 / 20 ∧
      (demoModeResult 180 ⟨1 / 2, 1 / 2, 1 / 2, 1 / 2, 1 / 2⟩).inseam =
          round10 (81 * scaleRatio 180 + (2 * (1 / 2) - 1)) ∧
      |(demoModeResult 180 ⟨1 / 2, 1 / 2, 1 / 2, 1 / 2, 1 / 2⟩).inseam -
          81 * scaleRatio 180| ≤ 21 / 20 :=
  demo_mode_spec 180 ⟨1 / 2, 1 / 2, 1 / 2, 1 / 2, 1 / 2⟩ (Except.error "offline")
    (by norm_num) (by norm_num) (by norm_num) (by norm_num) (by norm_num)
    (by norm_num) (by norm_num) (by norm_num)

end FT
